import Mathlib

/-!
Verification of the QuadX Sync Cache subsystem and the admin data
operations, as a shallow embedding of the TypeScript sources
(src/services/persistenceService.ts, src/components/Admin/AdminPanel.tsx,
src/unnamed/part_001 .. part_004) into Lean 4.

Asynchronous browser effects (fetch, IndexedDB, event dispatch) are made
explicit: each operation takes an environment value describing the outcome
of every external interaction (network result, local-store read/write
success) and returns, besides its value, a record of the observable
effects it performed (whether the remote POST was attempted, how many
change-broadcast events were dispatched). JSON documents are modelled by
an explicit inductive type; the platform codec pair JSON.stringify and
response.json is modelled as the identity between the document handed to
fetch and the document obtained by the peer.
-/

set_option autoImplicit false

/-- Status of a complaint record. The source (types.ts is not among the
provided files) uses the string union PENDING or RESOLVED; usage in
src/unnamed/part_001 and the toggle functions confirms exactly these two
values. -/
inductive ComplaintStatus where
  | PENDING
  | RESOLVED
deriving DecidableEq, Repr

/-- Flip of a complaint status, embedding the conditional expression
`c.status === PENDING ? RESOLVED : PENDING` from toggleComplaintStatus. -/
def flipStatus : ComplaintStatus → ComplaintStatus
  | .PENDING => .RESOLVED
  | .RESOLVED => .PENDING

/-- Complaint record, fields as constructed in ComplaintBox.handleSubmit
(src/unnamed/part_001, lines 20-25). -/
structure Complaint where
  id : String
  text : String
  timestamp : String
  status : ComplaintStatus
deriving DecidableEq, Repr

/-- One timetable slot, fields from the TIMETABLE schema in
src/services/geminiService.ts (extractCategoryData also attaches an id). -/
structure TimetableSlot where
  id : String
  time : String
  subject : String
  room : String
  color : String
deriving DecidableEq, Repr

/-- Timetable entry, fields from the TIMETABLE schema in
src/services/geminiService.ts plus the generated id. -/
structure TimetableEntry where
  id : String
  day : String
  branch : String
  year : String
  division : String
  slots : List TimetableSlot
deriving DecidableEq, Repr

/-- Scholarship record, fields from the SCHOLARSHIP schema in
src/services/geminiService.ts plus the generated id. -/
structure ScholarshipItem where
  id : String
  name : String
  amount : String
  deadline : String
  eligibility : String
  category : String
deriving DecidableEq, Repr

/-- Event record, fields from the EVENT schema in
src/services/geminiService.ts plus the generated id. -/
structure CampusEvent where
  id : String
  title : String
  date : String
  venue : String
  description : String
  category : String
deriving DecidableEq, Repr

/-- Exam record, fields from the EXAM schema in
src/services/geminiService.ts plus the generated id. -/
structure ExamSchedule where
  id : String
  subject : String
  date : String
  time : String
  venue : String
  branch : String
  year : String
  division : String
deriving DecidableEq, Repr

/-- Internship record, fields from the INTERNSHIP schema in
src/services/geminiService.ts plus the generated id. -/
structure InternshipItem where
  id : String
  company : String
  role : String
  location : String
  stipend : String
  branch : String
  year : String
deriving DecidableEq, Repr

/-- Modelled from the spec: attendance records are listed among the
collections of the aggregate (spec section 3) and, like every record,
carry a unique opaque identifier; no further fields are specified and the
declaring file types.ts is not among the provided sources. -/
structure AttendanceRecord where
  id : String
deriving DecidableEq, Repr

/-- Modelled from the spec: the AppState aggregate (spec section 3), a
single document with the named collections (timetable entries, attendance
records, exam schedules, scholarship items, event items, complaint
records, internship items) and two optional image blobs. The declaring
file types.ts is not among the provided sources; the collection names
follow the dataKey values of CATEGORY_MAP in the AdminPanel sources. -/
structure AppData where
  timetable : List TimetableEntry
  attendance : List AttendanceRecord
  exams : List ExamSchedule
  scholarships : List ScholarshipItem
  events : List CampusEvent
  complaints : List Complaint
  internships : List InternshipItem
  campusMapImage : Option String
  stylizedMapImage : Option String
deriving DecidableEq, Repr

/-- Modelled from the spec: the built-in default aggregate INITIAL_DATA
(constants.ts is not among the provided sources). Its exact contents are
immaterial to every claim; it is the value of the third fallback tier. -/
def INITIAL_DATA : AppData :=
  { timetable := []
    attendance := []
    exams := []
    scholarships := []
    events := []
    complaints := []
    internships := []
    campusMapImage := none
    stylizedMapImage := none }

/-- Admin categories, from the AdminCategory union in
src/components/Admin/AdminPanel.tsx. -/
inductive AdminCategory where
  | TIMETABLE
  | SCHOLARSHIP
  | EVENT
  | EXAM
  | INTERNSHIP
  | CAMPUS_MAP
  | COMPLAINTS
  | SYSTEM
deriving DecidableEq, Repr

/-- Embedding of deleteItem (src/components/Admin/AdminPanel.tsx lines
130-135, likewise src/unnamed/part_003 lines 133-140): look up the
dataKey of the category in CATEGORY_MAP; with no dataKey (CAMPUS_MAP and
SYSTEM in AdminPanel.tsx) return unchanged; otherwise replace that one
collection by its filter keeping the records whose id differs from the
given id. -/
def deleteItem (cat : AdminCategory) (id : String) (d : AppData) : AppData :=
  match cat with
  | .TIMETABLE => { d with timetable := d.timetable.filter (fun r => r.id != id) }
  | .SCHOLARSHIP => { d with scholarships := d.scholarships.filter (fun r => r.id != id) }
  | .EVENT => { d with events := d.events.filter (fun r => r.id != id) }
  | .EXAM => { d with exams := d.exams.filter (fun r => r.id != id) }
  | .INTERNSHIP => { d with internships := d.internships.filter (fun r => r.id != id) }
  | .COMPLAINTS => { d with complaints := d.complaints.filter (fun r => r.id != id) }
  | .CAMPUS_MAP => d
  | .SYSTEM => d

/-- Per-complaint step of toggleComplaintStatus, the arrow function
inside the map (src/unnamed/part_003 lines 127-129): flip the status of a
complaint whose id equals the given id, leave every other complaint
untouched. -/
def toggleStep (id : String) (c : Complaint) : Complaint :=
  if c.id == id then { c with status := flipStatus c.status } else c

/-- Embedding of toggleComplaintStatus (src/unnamed/part_003 lines
124-131, likewise src/unnamed/part_002 lines 152-157): map over the
complaints, flipping the status of every complaint whose id equals the
given id. -/
def toggleComplaintStatus (id : String) (d : AppData) : AppData :=
  { d with complaints := d.complaints.map (toggleStep id) }

/-- Embedding of the JavaScript String.prototype.trim call of the guard
in ComplaintBox.handleSubmit: remove all leading and all trailing
whitespace characters. -/
def jsTrim (s : String) : String :=
  String.mk (((s.data.dropWhile Char.isWhitespace).reverse.dropWhile
    Char.isWhitespace).reverse)

/-- Embedding of ComplaintBox.handleSubmit (src/unnamed/part_001 lines
15-39). The generated identifier and the timestamp are environment inputs
(Math.random and Date in the source). The guard returns the state
unchanged when the trimmed text is empty or a submission is already in
flight; otherwise the new PENDING record is prepended to the complaints
collection and nothing else changes. -/
def submitComplaint (text freshId timestamp : String) (isSyncing : Bool)
    (d : AppData) : AppData :=
  if jsTrim text == "" || isSyncing then d
  else
    { d with
      complaints :=
        { id := freshId, text := text, timestamp := timestamp,
          status := ComplaintStatus.PENDING } :: d.complaints }

/-- Composite-key comparison used by the timetable merge
(src/unnamed/part_002 line 136): day, branch, year and division all equal. -/
def sameKey (t e : TimetableEntry) : Bool :=
  t.day == e.day && t.branch == e.branch && t.year == e.year && t.division == e.division

/-- Merge of one extracted timetable entry into the timetable collection,
embedding the body of the forEach in updateAppData (src/unnamed/part_002
lines 135-139): findIndex locates the first entry with the same composite
key; on a match that entry keeps its place and its slot list is extended
by the new slots; with no match the entry is pushed at the end. -/
def addEntry (e : TimetableEntry) : List TimetableEntry → List TimetableEntry
  | [] => [e]
  | t :: ts =>
    if sameKey t e then { t with slots := t.slots ++ e.slots } :: ts
    else t :: addEntry e ts

/-- The TIMETABLE branch of updateAppData (src/unnamed/part_002 lines
130-145): fold the batch of extracted entries over the current timetable
with addEntry; no other field of the state changes. -/
def mergeTimetable (items : List TimetableEntry) (d : AppData) : AppData :=
  { d with timetable := items.foldl (fun acc e => addEntry e acc) d.timetable }

/-- The TIMETABLE case of the state update in processAndSave
(src/components/Admin/AdminPanel.tsx lines 105-128): the extracted
entries are spread onto the end of the collection with no composite-key
matching of any kind, the other fields staying unchanged. -/
def processAndSaveTimetable (items : List TimetableEntry) (d : AppData) : AppData :=
  { d with timetable := d.timetable ++ items }

/-- JSON documents, as the values response.json can produce and
JSON.stringify can consume. Numbers are modelled as integers, which
covers every numeric value occurring in this data model. -/
inductive Json where
  | null
  | bool (b : Bool)
  | num (n : Int)
  | str (s : String)
  | arr (elems : List Json)
  | obj (fields : List (String × Json))
deriving Repr

/-- Field lookup on a JSON object; none on every other document. -/
def Json.lookup (j : Json) (k : String) : Option Json :=
  match j with
  | .obj fields => List.lookup k fields
  | _ => none

/-- JavaScript truthiness of a JSON value, as tested by the leading
`cloudData &&` conjunct of the validity check in loadData
(src/services/persistenceService.ts line 57). -/
def Json.isTruthy : Json → Bool
  | .null => false
  | .bool b => b
  | .num n => n != 0
  | .str s => s != ""
  | .arr _ => true
  | .obj _ => true

/-- The conjunct `typeof cloudData === 'object'` of the validity check:
true exactly for null, arrays and objects. -/
def Json.typeofIsObject : Json → Bool
  | .null => true
  | .arr _ => true
  | .obj _ => true
  | _ => false

/-- The conjunct `Array.isArray(cloudData)` of the validity check. -/
def Json.isArray : Json → Bool
  | .arr _ => true
  | _ => false

/-- The full validity check applied to a fetched payload in loadData
(src/services/persistenceService.ts line 57):
`cloudData && typeof cloudData === 'object' && !Array.isArray(cloudData)`. -/
def acceptsRemotePayload (j : Json) : Bool :=
  j.isTruthy && j.typeofIsObject && !j.isArray

/-- Outcome of the GET against the Remote Shared Store as observed by
loadData: the fetch promise rejects, or the response arrives with a
non-success status, or it arrives ok with a parsed JSON body. -/
inductive RemoteLoad where
  | netError
  | httpError
  | ok (body : Json)
deriving Repr

/-- Outcome of the idbGet read of the Local Durable Cache during
loadData: the read rejects, or the key is absent (a falsy result), or a
stored document is found. -/
inductive LocalRead where
  | readError
  | absent
  | found (j : Json)
deriving Repr

/-- Environment of one loadData call: the remote fetch outcome, whether
the idbSet mirroring the accepted payload succeeds, and the local cache
read outcome. -/
structure LoadEnv where
  remote : RemoteLoad
  mirrorWriteOk : Bool
  cache : LocalRead
deriving Repr

/-- The local tier of loadData (src/services/persistenceService.ts lines
66-71): read the cache inside its own try/catch, return the stored
document when the read succeeds and the value is truthy, else return the
built-in default. encodeAppData INITIAL_DATA is the document value of the
default aggregate. -/
def fallbackLoad (dflt : Json) (env : LoadEnv) : Json :=
  match env.cache with
  | .found j => if j.isTruthy then j else dflt
  | _ => dflt

/-- Embedding of PersistenceService.loadData (src/services/
persistenceService.ts lines 52-72). Inside the first try: a rejecting
fetch jumps to the catch; a non-ok response skips the body; an ok
response has its body checked with acceptsRemotePayload; an accepted body
is first mirrored with idbSet (a rejecting idbSet jumps to the catch) and
then returned. Every other path continues into the local tier. The dflt
parameter is the document of the built-in default INITIAL_DATA. -/
def loadData (dflt : Json) (env : LoadEnv) : Json :=
  match env.remote with
  | .ok body =>
    if acceptsRemotePayload body && env.mirrorWriteOk then body
    else fallbackLoad dflt env
  | _ => fallbackLoad dflt env

/-- Outcome of the POST against the Remote Shared Store as observed by
saveData: the fetch promise rejects, or a response arrives and its ok
flag is as given. -/
inductive RemoteSave where
  | netError
  | respond (ok : Bool)
deriving DecidableEq, Repr

/-- Environment of one saveData call: whether the idbSet of the new state
succeeds, and the remote POST outcome. -/
structure SaveEnv where
  localWriteOk : Bool
  remote : RemoteSave
deriving DecidableEq, Repr

/-- Observable result of one saveData call: the returned boolean, whether
the remote POST was attempted at all, how many quadx_data_sync events
were dispatched, whether the local cache write took effect, and the JSON
document handed to fetch as the request body (none when the POST was
never attempted). -/
structure SaveResult where
  result : Bool
  remoteAttempted : Bool
  syncEvents : Nat
  localSaved : Bool
  posted : Option Json
deriving Repr

/-- Embedding of PersistenceService.saveData (src/services/
persistenceService.ts lines 77-96). The whole body is one try/catch: a
rejecting idbSet jumps to the catch and returns false before any fetch; a
rejecting fetch likewise returns false; a non-ok response returns false;
an ok response dispatches the quadx_data_sync event once and returns
true. The posted body is the JSON.stringify image of the state. -/
def saveData (doc : Json) (env : SaveEnv) : SaveResult :=
  if env.localWriteOk then
    match env.remote with
    | .netError =>
      { result := false, remoteAttempted := true, syncEvents := 0,
        localSaved := true, posted := some doc }
    | .respond ok =>
      if ok then
        { result := true, remoteAttempted := true, syncEvents := 1,
          localSaved := true, posted := some doc }
      else
        { result := false, remoteAttempted := true, syncEvents := 0,
          localSaved := true, posted := some doc }
  else
    { result := false, remoteAttempted := false, syncEvents := 0,
      localSaved := false, posted := none }

/-- Number of bytes JSON.stringify spends on one character inside a
string literal: the quote (code 34) and the backslash (code 92) become
two-character escapes, as do backspace, tab, newline, form feed and
carriage return; the remaining control characters become six-character
unicode escapes; every other character costs its UTF-8 width. -/
def escapedCharSize (c : Char) : Nat :=
  if c.val == 34 || c.val == 92 then 2
  else if c.val == 8 || c.val == 9 || c.val == 10 || c.val == 12 || c.val == 13 then 2
  else if c.val < 32 then 6
  else c.utf8Size

/-- Sum of escapedCharSize over a character list. -/
def escapedListSize : List Char → Nat
  | [] => 0
  | c :: cs => escapedCharSize c + escapedListSize cs

/-- Encoded size of a JSON string literal: two quotes plus the escaped
characters. -/
def stringEncodedSize (s : String) : Nat :=
  2 + escapedListSize s.data

mutual

/-- Number of bytes of the JSON.stringify image of a document (no
whitespace, as produced by the bare JSON.stringify call in saveData). -/
def jsonEncodedSize : Json → Nat
  | .null => 4
  | .bool b => if b then 4 else 5
  | .num n => (toString n).length
  | .str s => stringEncodedSize s
  | .arr xs => 2 + arrayEncodedSize xs
  | .obj fs => 2 + objectEncodedSize fs

/-- Encoded size of the comma-separated element list of a JSON array. -/
def arrayEncodedSize : List Json → Nat
  | [] => 0
  | [j] => jsonEncodedSize j
  | j :: js => jsonEncodedSize j + 1 + arrayEncodedSize js

/-- Encoded size of the comma-separated member list of a JSON object. -/
def objectEncodedSize : List (String × Json) → Nat
  | [] => 0
  | [(k, v)] => stringEncodedSize k + 1 + jsonEncodedSize v
  | (k, v) :: fs => stringEncodedSize k + 1 + jsonEncodedSize v + 1 + objectEncodedSize fs

end

/-- Modelled from the spec: the payload ceiling of the Remote Shared
Store, observed at about 1,000,000 encoded bytes (spec section 4.1); no
constant for it appears anywhere in the source. -/
def REMOTE_PAYLOAD_CEILING : Nat := 1000000

/-- JSON image of a timetable slot. -/
def encodeSlot (s : TimetableSlot) : Json :=
  .obj [("id", .str s.id), ("time", .str s.time), ("subject", .str s.subject),
        ("room", .str s.room), ("color", .str s.color)]

/-- JSON image of a timetable entry. -/
def encodeEntry (t : TimetableEntry) : Json :=
  .obj [("id", .str t.id), ("day", .str t.day), ("branch", .str t.branch),
        ("year", .str t.year), ("division", .str t.division),
        ("slots", .arr (t.slots.map encodeSlot))]

/-- JSON image of an attendance record. -/
def encodeAttendance (a : AttendanceRecord) : Json :=
  .obj [("id", .str a.id)]

/-- JSON image of an exam record. -/
def encodeExam (e : ExamSchedule) : Json :=
  .obj [("id", .str e.id), ("subject", .str e.subject), ("date", .str e.date),
        ("time", .str e.time), ("venue", .str e.venue), ("branch", .str e.branch),
        ("year", .str e.year), ("division", .str e.division)]

/-- JSON image of a scholarship record. -/
def encodeScholarship (s : ScholarshipItem) : Json :=
  .obj [("id", .str s.id), ("name", .str s.name), ("amount", .str s.amount),
        ("deadline", .str s.deadline), ("eligibility", .str s.eligibility),
        ("category", .str s.category)]

/-- JSON image of an event record. -/
def encodeEvent (e : CampusEvent) : Json :=
  .obj [("id", .str e.id), ("title", .str e.title), ("date", .str e.date),
        ("venue", .str e.venue), ("description", .str e.description),
        ("category", .str e.category)]

/-- JSON image of a complaint status string. -/
def encodeStatus : ComplaintStatus → Json
  | .PENDING => .str "PENDING"
  | .RESOLVED => .str "RESOLVED"

/-- JSON image of a complaint record. -/
def encodeComplaint (c : Complaint) : Json :=
  .obj [("id", .str c.id), ("text", .str c.text), ("timestamp", .str c.timestamp),
        ("status", encodeStatus c.status)]

/-- JSON image of an internship record. -/
def encodeInternship (i : InternshipItem) : Json :=
  .obj [("id", .str i.id), ("company", .str i.company), ("role", .str i.role),
        ("location", .str i.location), ("stipend", .str i.stipend),
        ("branch", .str i.branch), ("year", .str i.year)]

/-- Member list of an optional string field: JSON.stringify omits a field
whose value is undefined. -/
def optField (k : String) : Option String → List (String × Json)
  | some s => [(k, .str s)]
  | none => []

/-- Member list of the JSON image of the whole aggregate. -/
def appDataFields (d : AppData) : List (String × Json) :=
  [("timetable", .arr (d.timetable.map encodeEntry)),
   ("attendance", .arr (d.attendance.map encodeAttendance)),
   ("exams", .arr (d.exams.map encodeExam)),
   ("scholarships", .arr (d.scholarships.map encodeScholarship)),
   ("events", .arr (d.events.map encodeEvent)),
   ("complaints", .arr (d.complaints.map encodeComplaint)),
   ("internships", .arr (d.internships.map encodeInternship))]
  ++ optField "campusMapImage" d.campusMapImage
  ++ optField "stylizedMapImage" d.stylizedMapImage

/-- JSON image of the whole aggregate, the document handed to
JSON.stringify by saveData. -/
def encodeAppData (d : AppData) : Json :=
  .obj (appDataFields d)

/-- Decode a JSON string literal. -/
def decodeStr : Json → Option String
  | .str s => some s
  | _ => none

/-- Decode every element of a JSON array in order, failing when any
element fails. -/
def decodeElems {α : Type} (dec : Json → Option α) : List Json → Option (List α)
  | [] => some []
  | j :: js => do
    let a ← dec j
    let as ← decodeElems dec js
    pure (a :: as)

/-- Decode a JSON array with the given element decoder. -/
def decodeList {α : Type} (dec : Json → Option α) : Json → Option (List α)
  | .arr xs => decodeElems dec xs
  | _ => none

/-- Decode a timetable slot. -/
def decodeSlot (j : Json) : Option TimetableSlot := do
  let id ← j.lookup "id" >>= decodeStr
  let time ← j.lookup "time" >>= decodeStr
  let subject ← j.lookup "subject" >>= decodeStr
  let room ← j.lookup "room" >>= decodeStr
  let color ← j.lookup "color" >>= decodeStr
  pure { id := id, time := time, subject := subject, room := room, color := color }

/-- Decode a timetable entry. -/
def decodeEntry (j : Json) : Option TimetableEntry := do
  let id ← j.lookup "id" >>= decodeStr
  let day ← j.lookup "day" >>= decodeStr
  let branch ← j.lookup "branch" >>= decodeStr
  let year ← j.lookup "year" >>= decodeStr
  let division ← j.lookup "division" >>= decodeStr
  let slots ← j.lookup "slots" >>= decodeList decodeSlot
  pure { id := id, day := day, branch := branch, year := year,
         division := division, slots := slots }

/-- Decode an attendance record. -/
def decodeAttendance (j : Json) : Option AttendanceRecord := do
  let id ← j.lookup "id" >>= decodeStr
  pure { id := id }

/-- Decode an exam record. -/
def decodeExam (j : Json) : Option ExamSchedule := do
  let id ← j.lookup "id" >>= decodeStr
  let subject ← j.lookup "subject" >>= decodeStr
  let date ← j.lookup "date" >>= decodeStr
  let time ← j.lookup "time" >>= decodeStr
  let venue ← j.lookup "venue" >>= decodeStr
  let branch ← j.lookup "branch" >>= decodeStr
  let year ← j.lookup "year" >>= decodeStr
  let division ← j.lookup "division" >>= decodeStr
  pure { id := id, subject := subject, date := date, time := time,
         venue := venue, branch := branch, year := year, division := division }

/-- Decode a scholarship record. -/
def decodeScholarship (j : Json) : Option ScholarshipItem := do
  let id ← j.lookup "id" >>= decodeStr
  let name ← j.lookup "name" >>= decodeStr
  let amount ← j.lookup "amount" >>= decodeStr
  let deadline ← j.lookup "deadline" >>= decodeStr
  let eligibility ← j.lookup "eligibility" >>= decodeStr
  let category ← j.lookup "category" >>= decodeStr
  pure { id := id, name := name, amount := amount, deadline := deadline,
         eligibility := eligibility, category := category }

/-- Decode an event record. -/
def decodeEvent (j : Json) : Option CampusEvent := do
  let id ← j.lookup "id" >>= decodeStr
  let title ← j.lookup "title" >>= decodeStr
  let date ← j.lookup "date" >>= decodeStr
  let venue ← j.lookup "venue" >>= decodeStr
  let description ← j.lookup "description" >>= decodeStr
  let category ← j.lookup "category" >>= decodeStr
  pure { id := id, title := title, date := date, venue := venue,
         description := description, category := category }

/-- Decode a complaint status string. -/
def decodeStatus : Json → Option ComplaintStatus
  | .str "PENDING" => some .PENDING
  | .str "RESOLVED" => some .RESOLVED
  | _ => none

/-- Decode a complaint record. -/
def decodeComplaint (j : Json) : Option Complaint := do
  let id ← j.lookup "id" >>= decodeStr
  let text ← j.lookup "text" >>= decodeStr
  let timestamp ← j.lookup "timestamp" >>= decodeStr
  let status ← j.lookup "status" >>= decodeStatus
  pure { id := id, text := text, timestamp := timestamp, status := status }

/-- Decode an internship record. -/
def decodeInternship (j : Json) : Option InternshipItem := do
  let id ← j.lookup "id" >>= decodeStr
  let company ← j.lookup "company" >>= decodeStr
  let role ← j.lookup "role" >>= decodeStr
  let location ← j.lookup "location" >>= decodeStr
  let stipend ← j.lookup "stipend" >>= decodeStr
  let branch ← j.lookup "branch" >>= decodeStr
  let year ← j.lookup "year" >>= decodeStr
  pure { id := id, company := company, role := role, location := location,
         stipend := stipend, branch := branch, year := year }

/-- Decode an optional string field: an absent member yields none as the
field value, a present member must be a string. -/
def decodeOptStrField (j : Json) (k : String) : Option (Option String) :=
  match j.lookup k with
  | some v => (decodeStr v).map some
  | none => some none

/-- Decode the whole aggregate from its JSON document. -/
def decodeAppData (j : Json) : Option AppData := do
  let tt ← j.lookup "timetable" >>= decodeList decodeEntry
  let att ← j.lookup "attendance" >>= decodeList decodeAttendance
  let ex ← j.lookup "exams" >>= decodeList decodeExam
  let sch ← j.lookup "scholarships" >>= decodeList decodeScholarship
  let ev ← j.lookup "events" >>= decodeList decodeEvent
  let cmp ← j.lookup "complaints" >>= decodeList decodeComplaint
  let intern ← j.lookup "internships" >>= decodeList decodeInternship
  let cmi ← decodeOptStrField j "campusMapImage"
  let smi ← decodeOptStrField j "stylizedMapImage"
  pure { timetable := tt, attendance := att, exams := ex, scholarships := sch,
         events := ev, complaints := cmp, internships := intern,
         campusMapImage := cmi, stylizedMapImage := smi }

/-- The remote tier of loadData delivers its payload exactly when the
fetch returned ok, the body passed the validity check and the idbSet
mirroring it succeeded. -/
def remoteTierDelivers (env : LoadEnv) : Bool :=
  match env.remote with
  | .ok body => acceptsRemotePayload body && env.mirrorWriteOk
  | _ => false

/-- The document the local tier of loadData would return, none when the
cache read fails, the key is absent or the stored value is falsy. -/
def cacheHit (env : LoadEnv) : Option Json :=
  match env.cache with
  | .found j => if j.isTruthy then some j else none
  | _ => none

/-- Remote payload of the counterexample environment for the first load
claim: a perfectly valid aggregate document. -/
def remotePayloadC1 : Json := .obj [("timetable", .arr [])]

/-- Local cached document of the counterexample environment for the first
load claim, distinguishable from the remote payload. -/
def localDocC1 : Json := .obj [("marker", .str "local")]

/-- Load environment in which the remote fetch succeeds with a valid
payload but the idbSet mirroring it rejects. -/
def loadEnvC1 : LoadEnv :=
  { remote := .ok remotePayloadC1, mirrorWriteOk := false, cache := .found localDocC1 }

/-- Remote payload for the structural-validation counterexample: a JSON
object without any timetable member. -/
def remotePayloadC3 : Json := .obj [("foo", .str "bar")]

/-- Load environment in which the remote fetch succeeds with an object
lacking the timetable collection. -/
def loadEnvC3 : LoadEnv :=
  { remote := .ok remotePayloadC3, mirrorWriteOk := true, cache := .absent }

/-- Save environment in which the local cache write rejects while the
remote store would answer ok. -/
def saveEnvLocalFail : SaveEnv := { localWriteOk := false, remote := .respond true }

/-- Save environment in which both the local write and the remote POST
succeed. -/
def saveEnvAllOk : SaveEnv := { localWriteOk := true, remote := .respond true }

/-- A map image blob of one million characters, enough to push the
serialized aggregate over the payload ceiling. -/
def bigMapImage : String := String.mk (List.replicate 1000000 'a')

/-- An aggregate whose JSON.stringify image exceeds the payload ceiling
of the Remote Shared Store. -/
def oversizedState : AppData := { INITIAL_DATA with campusMapImage := some bigMapImage }

/-- Sample timetable slot for concrete witness computations. -/
def sampleSlot (n : String) : TimetableSlot :=
  { id := n, time := n, subject := n, room := n, color := n }

/-- Sample timetable entry for the Monday IT second-year A division. -/
def entryA : TimetableEntry :=
  { id := "e1", day := "Mon", branch := "IT", year := "2", division := "A",
    slots := [sampleSlot "s1"] }

/-- Sample entry with the same composite key as entryA but other slots. -/
def entryB : TimetableEntry :=
  { id := "e2", day := "Mon", branch := "IT", year := "2", division := "A",
    slots := [sampleSlot "s2"] }

/-- Sample entry with a composite key matching no other sample entry. -/
def entryC : TimetableEntry :=
  { id := "e3", day := "Tue", branch := "IT", year := "2", division := "A",
    slots := [sampleSlot "s3"] }

/-- Sample entry with the same composite key as entryC but other slots. -/
def entryD : TimetableEntry :=
  { id := "e4", day := "Tue", branch := "IT", year := "2", division := "A",
    slots := [sampleSlot "s4"] }

/-- Sample aggregate holding exactly entryA in its timetable. -/
def sampleState : AppData := { INITIAL_DATA with timetable := [entryA] }

/-- Load environment with a healthy remote, a healthy mirror write and an
empty cache, exercising the first tier. -/
def loadEnvOkA : LoadEnv :=
  { remote := .ok remotePayloadC1, mirrorWriteOk := true, cache := .absent }

/-- Load environment with a non-success remote status and a populated
cache, exercising the second tier. -/
def loadEnvLocalB : LoadEnv :=
  { remote := .httpError, mirrorWriteOk := true, cache := .found localDocC1 }

/-- Load environment with a rejecting fetch and an empty cache,
exercising the third tier. -/
def loadEnvDefaultC : LoadEnv :=
  { remote := .netError, mirrorWriteOk := true, cache := .absent }

/-- Load environment whose remote body is a JSON array. -/
def loadEnvArr : LoadEnv :=
  { remote := .ok (.arr []), mirrorWriteOk := true, cache := .absent }

/-- Sample complaint record for concrete witness computations. -/
def sampleComplaint : Complaint :=
  { id := "abc123", text := "noise in library", timestamp := "t0",
    status := ComplaintStatus.PENDING }

/-- Sample aggregate holding exactly sampleComplaint. -/
def complaintState : AppData := { INITIAL_DATA with complaints := [sampleComplaint] }

theorem decodeSlot_encodeSlot (s : TimetableSlot) : decodeSlot (encodeSlot s) = some s := rfl

theorem decodeAttendance_encodeAttendance (a : AttendanceRecord) :
    decodeAttendance (encodeAttendance a) = some a := rfl

theorem decodeExam_encodeExam (e : ExamSchedule) : decodeExam (encodeExam e) = some e := rfl

theorem decodeScholarship_encodeScholarship (s : ScholarshipItem) :
    decodeScholarship (encodeScholarship s) = some s := rfl

theorem decodeEvent_encodeEvent (e : CampusEvent) : decodeEvent (encodeEvent e) = some e := rfl

theorem decodeStatus_encodeStatus (st : ComplaintStatus) :
    decodeStatus (encodeStatus st) = some st := by
  cases st <;> rfl

theorem decodeComplaint_encodeComplaint (c : Complaint) :
    decodeComplaint (encodeComplaint c) = some c := by
  cases c with
  | mk id text timestamp status => cases status <;> rfl

theorem decodeInternship_encodeInternship (i : InternshipItem) :
    decodeInternship (encodeInternship i) = some i := rfl

theorem decodeElems_encode {α : Type} (dec : Json → Option α) (enc : α → Json)
    (h : ∀ a, dec (enc a) = some a) :
    ∀ l : List α, decodeElems dec (l.map enc) = some l
  | [] => rfl
  | a :: t => by
    simp [decodeElems, h a, decodeElems_encode dec enc h t]

theorem decodeList_encodeSlot (l : List TimetableSlot) :
    decodeList decodeSlot (.arr (l.map encodeSlot)) = some l :=
  decodeElems_encode _ _ decodeSlot_encodeSlot l

theorem decodeEntry_encodeEntry (t : TimetableEntry) :
    decodeEntry (encodeEntry t) = some t := by
  cases t with
  | mk id day branch year division slots =>
    simp [decodeEntry, encodeEntry, Json.lookup, List.lookup, decodeStr,
      decodeList_encodeSlot]

theorem decodeAppData_encodeAppData (d : AppData) :
    decodeAppData (encodeAppData d) = some d := by
  cases d with
  | mk tt att ex sch ev cmp intern cmi smi =>
    cases cmi <;> cases smi <;>
      simp [decodeAppData, encodeAppData, appDataFields, optField, Json.lookup, List.lookup,
        decodeList, decodeStr, decodeOptStrField,
        decodeElems_encode _ _ decodeEntry_encodeEntry,
        decodeElems_encode _ _ decodeAttendance_encodeAttendance,
        decodeElems_encode _ _ decodeExam_encodeExam,
        decodeElems_encode _ _ decodeScholarship_encodeScholarship,
        decodeElems_encode _ _ decodeEvent_encodeEvent,
        decodeElems_encode _ _ decodeComplaint_encodeComplaint,
        decodeElems_encode _ _ decodeInternship_encodeInternship]

theorem addEntry_no_match (e : TimetableEntry) :
    ∀ tt : List TimetableEntry, (∀ u ∈ tt, sameKey u e = false) →
      addEntry e tt = tt ++ [e]
  | [], _ => rfl
  | t :: ts, h => by
    have ht : sameKey t e = false := h t (List.mem_cons_self t ts)
    simp only [addEntry, ht, Bool.false_eq_true, if_false, List.cons_append,
      List.cons.injEq, true_and]
    exact addEntry_no_match e ts (fun u hu => h u (List.mem_cons_of_mem t hu))

theorem addEntry_first_match (e : TimetableEntry) :
    ∀ (pre : List TimetableEntry) (t : TimetableEntry) (post : List TimetableEntry),
      (∀ u ∈ pre, sameKey u e = false) → sameKey t e = true →
      addEntry e (pre ++ t :: post)
        = pre ++ { t with slots := t.slots ++ e.slots } :: post
  | [], t, post, _, ht => by simp [addEntry, ht]
  | u :: pre, t, post, h, ht => by
    have hu : sameKey u e = false := h u (List.mem_cons_self u pre)
    simp only [List.cons_append, addEntry, hu, Bool.false_eq_true, if_false,
      List.cons.injEq, true_and]
    exact addEntry_first_match e pre t post
      (fun v hv => h v (List.mem_cons_of_mem u hv)) ht

theorem sameKey_congr (u e1 e2 : TimetableEntry) (h12 : sameKey e1 e2 = true) :
    sameKey u e2 = sameKey u e1 := by
  have h := h12
  simp only [sameKey, Bool.and_eq_true, beq_iff_eq] at h
  obtain ⟨⟨⟨hd, hb⟩, hy⟩, hv⟩ := h
  simp only [sameKey, hd, hb, hy, hv]

theorem toggleStep_involutive (id : String) (c : Complaint) :
    toggleStep id (toggleStep id c) = c := by
  cases c with
  | mk cid ct cts cst =>
    by_cases h : cid == id
    · simp [toggleStep, h]
      cases cst <;> rfl
    · simp [toggleStep, h]

theorem map_toggleStep_involutive (id : String) :
    ∀ l : List Complaint, (l.map (toggleStep id)).map (toggleStep id) = l
  | [] => rfl
  | c :: t => by
    simp only [List.map_cons, List.cons.injEq]
    exact ⟨toggleStep_involutive id c, map_toggleStep_involutive id t⟩

theorem escapedListSize_replicate (n : Nat) (c : Char) :
    escapedListSize (List.replicate n c) = n * escapedCharSize c := by
  induction n with
  | zero => simp [List.replicate, escapedListSize]
  | succ k ih =>
    simp only [List.replicate_succ, escapedListSize, ih]
    ring

theorem stringEncodedSize_bigMapImage : stringEncodedSize bigMapImage = 1000002 := by
  have h1 : escapedCharSize 'a' = 1 := rfl
  have h2 : bigMapImage.data = List.replicate 1000000 'a' := rfl
  rw [stringEncodedSize, h2, escapedListSize_replicate, h1]

theorem le_objectEncodedSize (k : String) (v : Json) :
    ∀ fs : List (String × Json), (k, v) ∈ fs →
      jsonEncodedSize v ≤ objectEncodedSize fs := by
  intro fs
  induction fs with
  | nil => intro h; simp at h
  | cons p rest ih =>
    intro hm
    cases rest with
    | nil =>
      have hp : (k, v) = p := by
        rcases List.mem_cons.mp hm with h | h
        · exact h
        · simp at h
      cases p with
      | mk k2 v2 =>
        cases hp
        simp [objectEncodedSize]
    | cons q rest2 =>
      cases p with
      | mk k2 v2 =>
        rcases List.mem_cons.mp hm with h | h
        · have hv : v2 = v := congrArg Prod.snd h.symm
          subst hv
          simp only [objectEncodedSize]
          omega
        · have := ih h
          simp only [objectEncodedSize]
          omega

/-- C5: saveData dispatches the quadx_data_sync change broadcast exactly
once when the remote replace succeeds, in which case it returns true; in
every other outcome, in particular any remote failure (rejecting fetch or
non-success status), it dispatches no event and returns false, and it
never throws. -/
theorem c5_broadcast_on_success_only : ∀ (doc : Json) (env : SaveEnv),
    (saveData doc env).syncEvents
      = (if (saveData doc env).result then 1 else 0) ∧
    ((saveData doc env).result = true
      ↔ env.localWriteOk = true ∧ env.remote = RemoteSave.respond true) := by
  intro doc env
  rcases env with ⟨lw, rem⟩
  rcases rem with _ | ok <;> cases lw <;> (try cases ok) <;> simp [saveData]

/-- C6 (counterexample): in the environment where the local cache write
rejects and the remote store would answer ok, saveData does not attempt
the remote POST and returns false, contradicting the claim that the local
error is swallowed and the remote outcome alone decides the result. -/
theorem c6_local_failure_aborts_save :
    (saveData (encodeAppData INITIAL_DATA) saveEnvLocalFail).remoteAttempted = false ∧
    (saveData (encodeAppData INITIAL_DATA) saveEnvLocalFail).result = false :=
  ⟨rfl, rfl⟩

/-- C6 (amended): a failing local cache write inside saveData is caught
by the single try/catch of the function, the remote POST is never
attempted, no change broadcast is dispatched, and false is returned. -/
theorem c6_local_failure_returns_false : ∀ (doc : Json) (env : SaveEnv),
    env.localWriteOk = false →
    saveData doc env
      = { result := false, remoteAttempted := false, syncEvents := 0,
          localSaved := false, posted := none } := by
  intro doc env h
  simp [saveData, h]

theorem c6_local_failure_returns_false_witness :
    saveEnvLocalFail.localWriteOk = false ∧
    saveData (encodeAppData INITIAL_DATA) saveEnvLocalFail
      = { result := false, remoteAttempted := false, syncEvents := 0,
          localSaved := false, posted := none } :=
  ⟨rfl, c6_local_failure_returns_false (encodeAppData INITIAL_DATA) saveEnvLocalFail rfl⟩

/-- C7: saving a valid aggregate posts exactly its JSON document, loading
with the remote store answering exactly that document returns it, and
decoding the document recovers an aggregate deep-equal to the one saved,
so serialization followed by parsing is the identity. -/
theorem c7_save_load_roundtrip : ∀ s : AppData,
    (saveData (encodeAppData s) saveEnvAllOk).posted = some (encodeAppData s) ∧
    loadData (encodeAppData INITIAL_DATA)
      { remote := .ok (encodeAppData s), mirrorWriteOk := true, cache := .absent }
      = encodeAppData s ∧
    decodeAppData (encodeAppData s) = some s := by
  intro s
  exact ⟨rfl, rfl, decodeAppData_encodeAppData s⟩

/-- C8: for every keyed admin category, deleteItem replaces that one
collection by its filter dropping exactly the records whose identifier
equals the given id, keeping all the others in their original relative
order, and leaves every other field of the aggregate unchanged; for the
complaints collection the membership characterization and the sublist
property are stated explicitly. -/
theorem c8_delete_by_identifier : ∀ (d : AppData) (id : String),
    deleteItem .TIMETABLE id d
      = { d with timetable := d.timetable.filter (fun r => r.id != id) } ∧
    deleteItem .SCHOLARSHIP id d
      = { d with scholarships := d.scholarships.filter (fun r => r.id != id) } ∧
    deleteItem .EVENT id d
      = { d with events := d.events.filter (fun r => r.id != id) } ∧
    deleteItem .EXAM id d
      = { d with exams := d.exams.filter (fun r => r.id != id) } ∧
    deleteItem .INTERNSHIP id d
      = { d with internships := d.internships.filter (fun r => r.id != id) } ∧
    deleteItem .COMPLAINTS id d
      = { d with complaints := d.complaints.filter (fun r => r.id != id) } ∧
    (∀ r, r ∈ (deleteItem .COMPLAINTS id d).complaints
      ↔ r ∈ d.complaints ∧ r.id ≠ id) ∧
    (deleteItem .COMPLAINTS id d).complaints.Sublist d.complaints := by
  intro d id
  refine ⟨rfl, rfl, rfl, rfl, rfl, rfl, ?_, ?_⟩
  · intro r
    simp [deleteItem, List.mem_filter]
  · exact List.filter_sublist d.complaints

/-- C9: toggling a complaint status flips PENDING to RESOLVED and
RESOLVED to PENDING on exactly the complaints whose identifier equals the
given id, leaves every other complaint and every other field of the
aggregate unchanged, and toggling the same identifier twice restores the
original aggregate. -/
theorem c9_toggle_involution : ∀ (d : AppData) (id : String),
    flipStatus .PENDING = .RESOLVED ∧
    flipStatus .RESOLVED = .PENDING ∧
    toggleComplaintStatus id d
      = { d with complaints := d.complaints.map (toggleStep id) } ∧
    (∀ c ∈ d.complaints, c.id ≠ id → c ∈ (toggleComplaintStatus id d).complaints) ∧
    toggleComplaintStatus id (toggleComplaintStatus id d) = d := by
  intro d id
  refine ⟨rfl, rfl, rfl, ?_, ?_⟩
  · intro c hc hne
    have hstep : toggleStep id c = c := by
      simp [toggleStep, hne]
    simp only [toggleComplaintStatus]
    exact hstep ▸ List.mem_map_of_mem (toggleStep id) hc
  · have h : (d.complaints.map (toggleStep id)).map (toggleStep id) = d.complaints :=
      map_toggleStep_involutive id d.complaints
    simp only [toggleComplaintStatus]
    rw [h]

/-- C10: submitting a complaint with non-empty trimmed text and no
submission in flight prepends a fresh PENDING record built from the
generator-supplied identifier and timestamp to the head of the complaints
collection and modifies no other collection or field of the aggregate. -/
theorem c10_submit_prepends_pending : ∀ (d : AppData) (text freshId timestamp : String),
    jsTrim text ≠ "" →
    submitComplaint text freshId timestamp false d
      = { d with
          complaints :=
            { id := freshId, text := text, timestamp := timestamp,
              status := ComplaintStatus.PENDING } :: d.complaints } := by
  intro d text freshId timestamp h
  simp [submitComplaint, h]

theorem c10_submit_prepends_pending_witness :
    jsTrim "leaky tap in B wing" ≠ "" ∧
    submitComplaint "leaky tap in B wing" "id1" "t1" false INITIAL_DATA
      = { INITIAL_DATA with
          complaints :=
            [{ id := "id1", text := "leaky tap in B wing", timestamp := "t1",
               status := ComplaintStatus.PENDING }] } :=
  ⟨by decide,
   c10_submit_prepends_pending INITIAL_DATA "leaky tap in B wing" "id1" "t1" (by decide)⟩

theorem fallbackLoad_hit (dflt : Json) (env : LoadEnv) (j : Json)
    (h : cacheHit env = some j) : fallbackLoad dflt env = j := by
  rcases env with ⟨rem, mw, cache⟩
  cases cache with
  | found k =>
    by_cases hk : k.isTruthy
    · simp [cacheHit, hk] at h
      subst h
      simp [fallbackLoad, hk]
    · simp [cacheHit, hk] at h
  | readError => simp [cacheHit] at h
  | absent => simp [cacheHit] at h

theorem fallbackLoad_miss (dflt : Json) (env : LoadEnv)
    (h : cacheHit env = none) : fallbackLoad dflt env = dflt := by
  rcases env with ⟨rem, mw, cache⟩
  cases cache with
  | found k =>
    by_cases hk : k.isTruthy
    · simp [cacheHit, hk] at h
    · simp [fallbackLoad, hk]
  | readError => rfl
  | absent => rfl

theorem loadData_fallback (dflt : Json) (env : LoadEnv)
    (h : remoteTierDelivers env = false) :
    loadData dflt env = fallbackLoad dflt env := by
  rcases env with ⟨rem, mw, cache⟩
  cases rem with
  | ok body =>
    have hb : (acceptsRemotePayload body && mw) = false := by
      simpa [remoteTierDelivers] using h
    simp [loadData, hb]
  | netError => rfl
  | httpError => rfl

/-- C1 (counterexample): in the environment where the remote fetch
succeeds with a valid payload but the idbSet mirroring it rejects,
loadData returns the locally cached document rather than the payload,
contradicting the claim that a successful, valid remote fetch always
yields the payload. -/
theorem c1_valid_payload_lost_on_mirror_failure :
    acceptsRemotePayload remotePayloadC1 = true ∧
    loadData (encodeAppData INITIAL_DATA) loadEnvC1 = localDocC1 ∧
    loadData (encodeAppData INITIAL_DATA) loadEnvC1 ≠ remotePayloadC1 := by
  refine ⟨rfl, rfl, ?_⟩
  intro h
  have h2 : localDocC1 = remotePayloadC1 := h
  simp [localDocC1, remotePayloadC1] at h2

/-- C1 (amended): loadData never throws and always returns a usable
document through three tiers: the remote payload when the fetch succeeds,
the payload passes the validity check and the local mirror write
succeeds; otherwise the cached document when the cache read succeeds with
a truthy value; otherwise the built-in default aggregate. -/
theorem c1_three_tier_fallback : ∀ (dflt : Json) (env : LoadEnv),
    (∀ body, env.remote = .ok body → acceptsRemotePayload body = true →
      env.mirrorWriteOk = true → loadData dflt env = body) ∧
    (remoteTierDelivers env = false →
      ∀ j, env.cache = .found j → j.isTruthy = true → loadData dflt env = j) ∧
    (remoteTierDelivers env = false → cacheHit env = none →
      loadData dflt env = dflt) := by
  intro dflt env
  refine ⟨?_, ?_, ?_⟩
  · intro body hrem hacc hmw
    simp only [loadData]
    rw [hrem]
    simp [hacc, hmw]
  · intro hfail j hc htruthy
    rw [loadData_fallback dflt env hfail]
    apply fallbackLoad_hit dflt env j
    simp only [cacheHit]
    rw [hc]
    simp [htruthy]
  · intro hfail hnone
    rw [loadData_fallback dflt env hfail, fallbackLoad_miss dflt env hnone]

theorem c1_three_tier_fallback_witness :
    loadData (encodeAppData INITIAL_DATA) loadEnvOkA = remotePayloadC1 ∧
    loadData (encodeAppData INITIAL_DATA) loadEnvLocalB = localDocC1 ∧
    loadData (encodeAppData INITIAL_DATA) loadEnvDefaultC = encodeAppData INITIAL_DATA :=
  ⟨(c1_three_tier_fallback (encodeAppData INITIAL_DATA) loadEnvOkA).1
      remotePayloadC1 rfl rfl rfl,
   (c1_three_tier_fallback (encodeAppData INITIAL_DATA) loadEnvLocalB).2.1
      rfl localDocC1 rfl rfl,
   (c1_three_tier_fallback (encodeAppData INITIAL_DATA) loadEnvDefaultC).2.2
      rfl rfl⟩

/-- C3 (counterexample): a remote response that is a JSON object without
any timetable member passes the validity check and is returned by
loadData as authoritative, contradicting the claim that the check
requires at least the timetable collection to be defined. -/
theorem c3_object_without_timetable_accepted :
    remotePayloadC3.lookup "timetable" = none ∧
    loadData (encodeAppData INITIAL_DATA) loadEnvC3 = remotePayloadC3 ∧
    loadData (encodeAppData INITIAL_DATA) loadEnvC3
      ≠ fallbackLoad (encodeAppData INITIAL_DATA) loadEnvC3 := by
  refine ⟨rfl, rfl, ?_⟩
  intro h
  have h2 : remotePayloadC3 = encodeAppData INITIAL_DATA := h
  simp [remotePayloadC3, encodeAppData, appDataFields, INITIAL_DATA, optField] at h2

/-- C3 (amended): the structural check of loadData accepts a remote body
exactly when it is a JSON object (truthy, of object type and not an
array); no member such as the timetable collection is required; every
accepted body is returned as authoritative and every rejected body (an
array, null or a primitive) makes loadData fall back to the local tier. -/
theorem c3_structural_check : ∀ (dflt : Json) (env : LoadEnv) (body : Json),
    env.remote = .ok body → env.mirrorWriteOk = true →
    (((∃ fields, body = Json.obj fields) → loadData dflt env = body) ∧
     (acceptsRemotePayload body = false →
       loadData dflt env = fallbackLoad dflt env) ∧
     (acceptsRemotePayload body = true ↔ ∃ fields, body = Json.obj fields)) := by
  intro dflt env body hrem hmw
  have hiff : acceptsRemotePayload body = true ↔ ∃ fields, body = Json.obj fields := by
    cases body <;>
      simp [acceptsRemotePayload, Json.isTruthy, Json.typeofIsObject, Json.isArray]
  refine ⟨?_, ?_, hiff⟩
  · intro hobj
    have hacc := hiff.mpr hobj
    simp only [loadData]
    rw [hrem]
    simp [hacc, hmw]
  · intro hacc
    apply loadData_fallback
    simp only [remoteTierDelivers]
    rw [hrem]
    simp [hacc]

theorem c3_structural_check_witness :
    loadData (encodeAppData INITIAL_DATA) loadEnvC3 = remotePayloadC3 ∧
    loadData (encodeAppData INITIAL_DATA) loadEnvArr
      = fallbackLoad (encodeAppData INITIAL_DATA) loadEnvArr ∧
    acceptsRemotePayload remotePayloadC3 = true :=
  ⟨(c3_structural_check (encodeAppData INITIAL_DATA) loadEnvC3 remotePayloadC3
      rfl rfl).1 ⟨[("foo", Json.str "bar")], rfl⟩,
   (c3_structural_check (encodeAppData INITIAL_DATA) loadEnvArr (Json.arr [])
      rfl rfl).2.1 rfl,
   (c3_structural_check (encodeAppData INITIAL_DATA) loadEnvC3 remotePayloadC3
      rfl rfl).2.2.mpr ⟨[("foo", Json.str "bar")], rfl⟩⟩

/-- C4 (counterexample): the processAndSave path cited by the claim
appends an extracted entry whose composite key already exists in the
timetable, so the result holds two entries with the same (day, branch,
year, division) key with the first one keeping its old slot list, and it
differs from what the composite-key merge of updateAppData produces on
the same input; the claim that the admin merge never creates a duplicate
entry is therefore false for that cited code. -/
theorem c4_append_without_merge_duplicates :
    sameKey entryA entryB = true ∧
    processAndSaveTimetable [entryB] sampleState
      = { sampleState with timetable := [entryA, entryB] } ∧
    processAndSaveTimetable [entryB] sampleState
      ≠ mergeTimetable [entryB] sampleState := by
  refine ⟨by decide, rfl, by decide⟩

/-- C4 (amended): merging by the (day, branch, year, division) composite
key holds for the updateAppData variant of src/unnamed/part_002: there,
when a first matching entry exists the new slots are appended to its slot
list in arrival order and no duplicate entry is created; when no entry
matches, the whole new entry is appended at the end; and a batch of two
entries sharing a fresh composite key collapses into one entry carrying
the concatenation of both slot lists. The processAndSave path of
src/components/Admin/AdminPanel.tsx, by contrast, performs no key
matching: it appends every extracted entry even when an entry with the
same composite key already exists, keeping the old entry and growing the
collection by one. -/
theorem c4_merge_by_composite_key : ∀ (d : AppData) (e : TimetableEntry),
    (∀ t, t ∈ d.timetable → sameKey t e = true →
      t ∈ (processAndSaveTimetable [e] d).timetable ∧
      e ∈ (processAndSaveTimetable [e] d).timetable ∧
      (processAndSaveTimetable [e] d).timetable.length
        = d.timetable.length + 1) ∧
    (∀ (pre post : List TimetableEntry) (t : TimetableEntry),
      d.timetable = pre ++ t :: post →
      (∀ u ∈ pre, sameKey u e = false) → sameKey t e = true →
      mergeTimetable [e] d
        = { d with timetable := pre ++ { t with slots := t.slots ++ e.slots } :: post }) ∧
    ((∀ u ∈ d.timetable, sameKey u e = false) →
      mergeTimetable [e] d = { d with timetable := d.timetable ++ [e] }) ∧
    (∀ e2, (∀ u ∈ d.timetable, sameKey u e = false) → sameKey e e2 = true →
      mergeTimetable [e, e2] d
        = { d with timetable :=
              d.timetable ++ [{ e with slots := e.slots ++ e2.slots }] }) := by
  intro d e
  refine ⟨?_, ?_, ?_, ?_⟩
  · intro t ht _hkey
    refine ⟨?_, ?_, ?_⟩
    · simp only [processAndSaveTimetable, List.mem_append]
      exact Or.inl ht
    · simp [processAndSaveTimetable]
    · simp [processAndSaveTimetable]
  · intro pre post t hsplit hpre ht
    simp only [mergeTimetable, List.foldl_cons, List.foldl_nil]
    rw [hsplit, addEntry_first_match e pre t post hpre ht]
  · intro hnone
    simp only [mergeTimetable, List.foldl_cons, List.foldl_nil]
    rw [addEntry_no_match e d.timetable hnone]
  · intro e2 hnone h12
    have hall : ∀ u ∈ d.timetable, sameKey u e2 = false := by
      intro u hu
      rw [sameKey_congr u e e2 h12]
      exact hnone u hu
    simp only [mergeTimetable, List.foldl_cons, List.foldl_nil]
    rw [addEntry_no_match e d.timetable hnone,
      addEntry_first_match e2 d.timetable e [] hall h12]

theorem c4_merge_by_composite_key_witness :
    (entryA ∈ (processAndSaveTimetable [entryB] sampleState).timetable ∧
     entryB ∈ (processAndSaveTimetable [entryB] sampleState).timetable ∧
     (processAndSaveTimetable [entryB] sampleState).timetable.length
       = sampleState.timetable.length + 1) ∧
    mergeTimetable [entryB] sampleState
      = { sampleState with
          timetable := [{ entryA with slots := entryA.slots ++ entryB.slots }] } ∧
    mergeTimetable [entryC] sampleState
      = { sampleState with timetable := [entryA, entryC] } ∧
    mergeTimetable [entryC, entryD] sampleState
      = { sampleState with
          timetable := [entryA, { entryC with slots := entryC.slots ++ entryD.slots }] } :=
  ⟨(c4_merge_by_composite_key sampleState entryB).1 entryA
      (by simp [sampleState, INITIAL_DATA]) (by decide),
   (c4_merge_by_composite_key sampleState entryB).2.1 [] [] entryA rfl
      (by intro u hu; simp at hu) (by decide),
   (c4_merge_by_composite_key sampleState entryC).2.2.1
      (by intro u hu; simp [sampleState, INITIAL_DATA] at hu; subst hu; decide),
   (c4_merge_by_composite_key sampleState entryC).2.2.2 entryD
      (by intro u hu; simp [sampleState, INITIAL_DATA] at hu; subst hu; decide)
      (by decide)⟩

theorem jsonEncodedSize_str (s : String) :
    jsonEncodedSize (Json.str s) = stringEncodedSize s := by
  simp [jsonEncodedSize]

theorem jsonEncodedSize_obj (fs : List (String × Json)) :
    jsonEncodedSize (Json.obj fs) = 2 + objectEncodedSize fs := by
  simp [jsonEncodedSize]

/-- C2 (counterexample): an aggregate whose JSON image exceeds the
payload ceiling of the Remote Shared Store is still POSTed by saveData,
and with the store answering ok the call even returns true, contradicting
the claim that the remote step is skipped and false returned; no size
measurement exists anywhere in saveData. -/
theorem c2_oversized_payload_still_posted :
    REMOTE_PAYLOAD_CEILING < jsonEncodedSize (encodeAppData oversizedState) ∧
    (saveData (encodeAppData oversizedState) saveEnvAllOk).remoteAttempted = true ∧
    (saveData (encodeAppData oversizedState) saveEnvAllOk).result = true := by
  refine ⟨?_, rfl, rfl⟩
  have hmem : ("campusMapImage", Json.str bigMapImage) ∈ appDataFields oversizedState := by
    simp [appDataFields, oversizedState, INITIAL_DATA, optField]
  have hle := le_objectEncodedSize "campusMapImage" (Json.str bigMapImage)
    (appDataFields oversizedState) hmem
  have hstr : jsonEncodedSize (Json.str bigMapImage) = 1000002 := by
    rw [jsonEncodedSize_str, stringEncodedSize_bigMapImage]
  have hobj : jsonEncodedSize (encodeAppData oversizedState)
      = 2 + objectEncodedSize (appDataFields oversizedState) :=
    jsonEncodedSize_obj (appDataFields oversizedState)
  rw [hstr] at hle
  rw [hobj]
  simp only [REMOTE_PAYLOAD_CEILING]
  omega

/-- C2 (amended): saveData performs no size measurement at all: whenever
the local write succeeds it attempts the remote POST regardless of the
encoded size of the payload, the local copy is persisted, and the
returned boolean reflects only the remote outcome, an oversized payload
being rejected by the store itself as a non-success response. -/
theorem c2_no_size_ceiling_check : ∀ (doc : Json) (env : SaveEnv),
    env.localWriteOk = true →
    (saveData doc env).remoteAttempted = true ∧
    (saveData doc env).localSaved = true ∧
    ((saveData doc env).result = true ↔ env.remote = RemoteSave.respond true) := by
  intro doc env h
  rcases env with ⟨lw, rem⟩
  have h2 : lw = true := h
  subst h2
  rcases rem with _ | ok
  · simp [saveData]
  · cases ok <;> simp [saveData]

theorem c2_no_size_ceiling_check_witness :
    saveEnvAllOk.localWriteOk = true ∧
    ((saveData (encodeAppData oversizedState) saveEnvAllOk).remoteAttempted = true ∧
     (saveData (encodeAppData oversizedState) saveEnvAllOk).localSaved = true ∧
     ((saveData (encodeAppData oversizedState) saveEnvAllOk).result = true
       ↔ saveEnvAllOk.remote = RemoteSave.respond true)) :=
  ⟨rfl, c2_no_size_ceiling_check (encodeAppData oversizedState) saveEnvAllOk rfl⟩

theorem c9_toggle_involution_witness :
    sampleComplaint ∈ complaintState.complaints ∧
    sampleComplaint.id ≠ "zzz" ∧
    sampleComplaint ∈ (toggleComplaintStatus "zzz" complaintState).complaints ∧
    toggleComplaintStatus "abc123" (toggleComplaintStatus "abc123" complaintState)
      = complaintState :=
  ⟨by simp [complaintState, INITIAL_DATA],
   by decide,
   (c9_toggle_involution complaintState "zzz").2.2.2.1 sampleComplaint
     (by simp [complaintState, INITIAL_DATA]) (by decide),
   (c9_toggle_involution complaintState "abc123").2.2.2.2⟩
